import Mathlib

/-
  Verification development for the VL_TooL backend (src/backend/app.py,
  src/backend/video_downloader.py).

  The Python code is shallowly embedded below.  Network-dependent method
  bodies (yt-dlp calls, HTTP requests to mirror services) are modelled as
  oracle parameters of type String -> Except String VideoInfo: an
  Except.error models the Python exception raised by that method, an
  Except.ok models a successful return.  Control flow (the try/except
  fallback cascades, the streaming retry loop, the chunk loop, the status
  bookkeeping on the active_downloads registry) is translated directly
  from the source.  Wall-clock values (time.time()) are modelled as Nat
  seconds supplied by the environment; floating-point derived telemetry
  (speed, eta, percentage) is not modelled.  str.encode('utf-8') is
  modelled as the list of code points (nonempty iff the string is).
-/

namespace VLTool

/-- Canonical extraction result dictionary returned by every extraction
method in app.py (keys direct_url, title, filename, filesize, platform;
the remaining metadata keys and the headers dict are not needed by any
claim and are omitted). -/
structure VideoInfo where
  direct_url : String
  title : String
  filename : String
  filesize : Option Nat
  platform : String
deriving DecidableEq, Repr

/-- An extraction strategy body: the network-dependent part of one
extraction method, modelled as an oracle.  Except.error e models the
method raising an exception with message e. -/
abbrev Strat := String → Except String VideoInfo

/- ----------------------------------------------------------------
   Substring search (models the Python "in" operator on str).
   ---------------------------------------------------------------- -/

/-- Boolean substring test on character lists: models the Python
expression needle in hay on strings. -/
def hasSub (needle : List Char) : List Char → Bool
  | [] => needle.isEmpty
  | c :: t => needle.isPrefixOf (c :: t) || hasSub needle t

/-- Substring test on strings via their character lists. -/
def strHasSub (needle hay : String) : Bool :=
  hasSub needle.data hay.data

theorem isPrefixOf_append_of_isPrefixOf {n l b : List Char}
    (h : n.isPrefixOf l = true) : n.isPrefixOf (l ++ b) = true := by
  induction n generalizing l with
  | nil => simp [List.isPrefixOf]
  | cons x xs ih =>
    cases l with
    | nil => simp [List.isPrefixOf] at h
    | cons c t =>
      simp only [List.isPrefixOf, Bool.and_eq_true] at h ⊢
      exact ⟨h.1, ih h.2⟩

theorem hasSub_append_left {n a : List Char} (b : List Char)
    (h : hasSub n a = true) : hasSub n (a ++ b) = true := by
  induction a with
  | nil =>
    simp only [hasSub, List.isEmpty_iff] at h
    subst h
    cases b with
    | nil => simp [hasSub]
    | cons c t => simp [hasSub, List.isPrefixOf]
  | cons c t ih =>
    simp only [hasSub, Bool.or_eq_true] at h ⊢
    rcases h with h | h
    · exact Or.inl (isPrefixOf_append_of_isPrefixOf h)
    · exact Or.inr (ih h)

/- ----------------------------------------------------------------
   Platform detection.
   app.py: StreamingVideoExtractor.detect_platform (lines 1047-1060)
   video_downloader.py: VideoDownloader.detect_platform (lines 186-202)
   ---------------------------------------------------------------- -/

/-- Host patterns checked for the tiktok tag in app.py detect_platform. -/
def tiktokHosts : List String := ["tiktok.com", "vm.tiktok.com", "vt.tiktok.com"]

/-- Host patterns checked for the youtube tag in app.py detect_platform. -/
def youtubeHosts : List String := ["youtube.com", "youtu.be", "m.youtube.com"]

/-- Host patterns checked for the instagram tag in app.py detect_platform. -/
def instagramHosts : List String := ["instagram.com", "instagr.am"]

/-- Host patterns checked for the facebook tag in app.py detect_platform. -/
def facebookHosts : List String := ["facebook.com", "fb.watch", "m.facebook.com"]

/-- Models Python str.lower() as per-character lowercasing (the host
patterns and URLs involved are ASCII). -/
def lowerStr (s : String) : String :=
  String.mk (s.data.map Char.toLower)

/-- StreamingVideoExtractor.detect_platform (app.py lines 1047-1060).
Note the source sets domain = url.lower() and then tests the patterns
with the Python "in" operator against that WHOLE lowercased URL, not
against the parsed hostname. -/
def detect_platform (url : String) : String :=
  if tiktokHosts.any (fun x => strHasSub x (lowerStr url)) then "tiktok"
  else if youtubeHosts.any (fun x => strHasSub x (lowerStr url)) then "youtube"
  else if instagramHosts.any (fun x => strHasSub x (lowerStr url)) then "instagram"
  else if facebookHosts.any (fun x => strHasSub x (lowerStr url)) then "facebook"
  else "unknown"

/-- Character allowed inside a URL scheme (letters, digits, plus, minus,
dot), as accepted by urllib.parse.urlparse. -/
def isSchemeChar (c : Char) : Bool :=
  c.isAlphanum || c = '+' || c = '-' || c = '.'

/-- Strips a leading scheme: prefix from the character list, as
urllib.parse.urlparse does (the scheme must start with a letter and
consist of scheme characters up to a colon; otherwise nothing is
stripped). -/
def dropScheme (l : List Char) : List Char :=
  match l with
  | [] => []
  | c :: rest =>
    if c.isAlpha then
      match rest.dropWhile isSchemeChar with
      | ':' :: r2 => r2
      | _ => l
    else l

/-- Models urllib.parse.urlparse(url).netloc: after removing a scheme
prefix, if the remainder begins with two slashes the netloc is the text
up to the next slash, question mark or hash; otherwise it is empty. -/
def netloc (url : String) : String :=
  match dropScheme url.data with
  | '/' :: '/' :: rest =>
    String.mk (rest.takeWhile (fun c => c ≠ '/' && c ≠ '?' && c ≠ '#'))
  | _ => ""

/-- The platform_patterns table of VideoDownloader.detect_platform
(video_downloader.py lines 190-196), in source (dict insertion) order. -/
def vdPlatformPatterns : List (String × List String) :=
  [("tiktok", ["tiktok.com", "vm.tiktok.com"]),
   ("douyin", ["douyin.com", "v.douyin.com"]),
   ("youtube", ["youtube.com", "youtu.be", "m.youtube.com"]),
   ("facebook", ["facebook.com", "fb.watch", "m.facebook.com"]),
   ("instagram", ["instagram.com", "instagr.am"])]

/-- VideoDownloader.detect_platform (video_downloader.py lines 186-202):
matches the pattern table against the lowercased netloc of the URL and
returns the first matching platform tag, defaulting to unknown. -/
def vd_detect_platform (url : String) : String :=
  match vdPlatformPatterns.find?
      (fun p => p.2.any (fun d => strHasSub d (lowerStr (netloc url)))) with
  | some p => p.1
  | none => "unknown"

/- ----------------------------------------------------------------
   Filename cleaning.
   app.py: AdvancedTikTokExtractor._clean_filename (lines 862-869),
   StreamingVideoExtractor._clean_filename (lines 1040-1045) and the
   module-level clean_filename (lines 1066-1073) are three copies of the
   same pipeline.
   ---------------------------------------------------------------- -/

/-- The characters removed by the first substitution
re.sub applied with the class of angle brackets, colon, double quote,
slash, backslash, pipe, question mark and star. -/
def badFsChars : List Char := ['<', '>', ':', '"', '/', '\\', '|', '?', '*']

/-- Control characters: C0 controls, DEL, and the C1 block. -/
def isCtrl (c : Char) : Bool :=
  c.toNat < 32 || (127 ≤ c.toNat && c.toNat ≤ 159)

/-- Replaces every maximal run of characters satisfying p by a single
dash: models the substitution of the regex class of dash-or-whitespace,
one or more times, by a dash. -/
def collapseRuns (p : Char → Bool) : List Char → List Char
  | [] => []
  | c :: rest =>
    let tailRes := collapseRuns p rest
    if p c then
      match tailRes with
      | [] => ['-']
      | d :: ds => if d = '-' then '-' :: ds else '-' :: d :: ds
    else c :: tailRes

/-- Python str.strip applied with a dash argument: removes leading and
trailing dashes. -/
def stripEnds (l : List Char) : List Char :=
  ((l.dropWhile (fun c => c = '-')).reverse.dropWhile (fun c => c = '-')).reverse

/-- The clean_filename pipeline of app.py (lines 862-869, 1040-1045,
1066-1073), generic over the character classes of the Python regexes:
isW models the word class of backslash-w and isS the whitespace class of
backslash-s (Python matches these Unicode-wide; any instantiation
excluding control characters from isW is faithful, and the concrete
ASCII instantiation below is used for evaluation).  Pipeline: empty
input returns the string video; then the filesystem-special characters
are deleted; then every character that is neither word, whitespace nor
dash is deleted; then each run of whitespace-or-dash becomes one dash;
then outer dashes are stripped; an empty result returns the string
video, otherwise the first 30 characters are returned. -/
def clean_fn_gen (isW isS : Char → Bool) (filename : String) : String :=
  if filename = "" then "video"
  else
    let s1 := filename.data.filter (fun c => !(badFsChars.contains c))
    let s2 := s1.filter (fun c => isW c || isS c || c = '-')
    let s3 := collapseRuns (fun c => isS c || c = '-') s2
    let s4 := stripEnds s3
    if s4 = [] then "video" else String.mk (s4.take 30)

/-- ASCII word characters: digits, upper and lower case letters and the
underscore (code point 95). -/
def wordCharAscii (c : Char) : Bool :=
  (48 ≤ c.toNat && c.toNat ≤ 57) || (65 ≤ c.toNat && c.toNat ≤ 90) ||
    c.toNat = 95 || (97 ≤ c.toNat && c.toNat ≤ 122)

/-- ASCII whitespace characters matched by the Python regex class of
backslash-s: space, tab, newline, carriage return, vertical tab, form
feed. -/
def spaceCharAscii (c : Char) : Bool :=
  c.toNat = 32 || c.toNat = 9 || c.toNat = 10 || c.toNat = 13 ||
    c.toNat = 11 || c.toNat = 12

/-- clean_filename with the concrete ASCII character classes. -/
def clean_filename (filename : String) : String :=
  clean_fn_gen wordCharAscii spaceCharAscii filename

/- ----------------------------------------------------------------
   Extraction fallback chain.
   app.py: AdvancedTikTokExtractor.extract_tiktok_video (lines 61-107)
   and AdvancedTikTokExtractor._extract_with_proxy_services
   (lines 109-127).
   ---------------------------------------------------------------- -/

/-- Outcome of running a try/except fallback cascade: the labels of the
methods that were actually invoked (in invocation order), the error
strings accumulated by the except clauses (in order, formatted as by
errors.append in the source), and the final outcome. -/
structure ChainRun where
  invoked : List String
  errors : List String
  outcome : Except String VideoInfo

/-- Core of the try/except cascade of extract_tiktok_video (app.py lines
69-102): invoke each labelled method in order; the first method that
returns (does not raise) ends the cascade with its value; a raising
method contributes the string label-colon-message to the error list and
the cascade continues.  Returns (invoked labels, error list, optional
value). -/
def runChainCore : List (String × Strat) → String → List String × List String × Option VideoInfo
  | [], _ => ([], [], none)
  | (nm, s) :: rest, url =>
    match s url with
    | Except.ok v => ([nm], [], some v)
    | Except.error e =>
      let r := runChainCore rest url
      (nm :: r.1, (nm ++ ": " ++ e) :: r.2.1, r.2.2)

/-- The exception message raised by extract_tiktok_video when every
method has failed (app.py line 107).  Note it is a fixed sentence: the
accumulated per-method errors are only written to the log (line 105). -/
def tiktokFailMsg : String :=
  "TikTok extraction failed completely. This video may be private, deleted, or TikTok has implemented new protections."

/-- The log-only aggregate built at app.py line 105 from the accumulated
per-method error strings. -/
def aggregateLog (errors : List String) : String :=
  "All TikTok extraction methods failed:\n" ++ String.intercalate "\n" errors

/-- The labels used by the except clauses of extract_tiktok_video
(app.py lines 73, 80, 87, 94, 101), in configured order. -/
def tiktokMethodLabels : List String :=
  ["yt-dlp method", "API rotation", "Browser simulation", "Proxy services", "SSSTik method"]

/-- AdvancedTikTokExtractor.extract_tiktok_video (app.py lines 61-107),
generic over the labelled method bodies (the five concrete bodies are
network oracles; their configured labels are tiktokMethodLabels).  The
URL argument stands for the already cleaned URL (the redirect-following
_clean_tiktok_url normalization at line 66 is a network effect applied
before the cascade).  If every method raises, the surfaced exception is
the fixed tiktokFailMsg; the per-method messages live only in the
errors field (they are logged via aggregateLog). -/
def extract_tiktok_video (methods : List (String × Strat)) (url : String) : ChainRun :=
  let r := runChainCore methods url
  { invoked := r.1
    errors := r.2.1
    outcome := match r.2.2 with
      | some v => Except.ok v
      | none => Except.error tiktokFailMsg }

/-- The exception message raised by _extract_with_proxy_services when
every proxy service has failed (app.py line 127). -/
def proxyFailMsg : String := "All proxy services failed"

/-- AdvancedTikTokExtractor._extract_with_proxy_services (app.py lines
109-127): the same first-success cascade over the five labelled proxy
service oracles (SnapTik, TikMate, SaveTT, TikWM, CORS Proxy); per
service failures are only logged at debug level, and exhausting the
list raises proxyFailMsg. -/
def extract_with_proxy_services (services : List (String × Strat)) (url : String) : ChainRun :=
  let r := runChainCore services url
  { invoked := r.1
    errors := r.2.1
    outcome := match r.2.2 with
      | some v => Except.ok v
      | none => Except.error proxyFailMsg }

/- ----------------------------------------------------------------
   Extractor facade.
   app.py: StreamingVideoExtractor.extract_direct_url (lines 894-902),
   _extract_other_platform (lines 904-934),
   _extract_generic_platform (lines 989-993).
   ---------------------------------------------------------------- -/

/-- Run record of the facade: the result, the route taken, and whether
_extract_generic_platform (a yt-dlp network extraction attempt) was
invoked. -/
structure FacadeOut where
  result : Except String VideoInfo
  route : String
  genericCalled : Bool
deriving Repr

/-- StreamingVideoExtractor.extract_direct_url (app.py lines 894-902)
together with _extract_other_platform (lines 904-934): detect the
platform; the tiktok tag goes to the TikTok cascade; the youtube tag
goes to _extract_youtube_with_fallback; EVERY other tag, including
unknown, reaches _extract_generic_platform, which runs a yt-dlp
extraction on the URL (lines 989-993) - there is no unsupported-platform
rejection anywhere.  The three oracles model the network-dependent
bodies of those three routes; the generic oracle also receives the
detected platform tag (used by _format_platform_response for the
filename prefix). -/
def extract_direct_url (tiktokX : String → Except String VideoInfo)
    (youtubeX : String → Except String VideoInfo)
    (genericX : String → String → Except String VideoInfo)
    (url : String) : FacadeOut :=
  let p := detect_platform url
  if p = "tiktok" then
    { result := tiktokX url, route := "tiktok", genericCalled := false }
  else if p = "youtube" then
    { result := youtubeX url, route := "youtube_fallback", genericCalled := false }
  else
    { result := genericX url p, route := "generic_yt_dlp", genericCalled := true }

/- ----------------------------------------------------------------
   Download registry and streaming relay.
   app.py: quick_download (lines 1170-1222), stream_video with its inner
   generate_stream / handle_regular_streaming / perform_streaming
   (lines 1224-1614), clear_downloads (lines 1654-1672).
   ---------------------------------------------------------------- -/

/-- One entry of the active_downloads dict.  quick_download (app.py
lines 1196-1206) creates it with keys id, url, status, platform, title,
filename, filesize, created_at, type; streaming later adds total_bytes,
downloaded_bytes and error.  The created_at timestamp is wall-clock and
not modelled; the numeric progress fields default to zero standing for
keys not yet present.  Note there is NO field holding the resolved
direct media URL: the extraction result's direct_url is not stored. -/
structure DownloadEntry where
  id : String := ""
  url : String := ""
  status : String := "ready"
  platform : String := ""
  title : String := ""
  filename : String := ""
  filesize : Option Nat := none
  dltype : String := "streaming"
  total_bytes : Nat := 0
  downloaded_bytes : Nat := 0
  error : Option String := none
deriving DecidableEq, Repr

/-- The active_downloads entry created by quick_download (app.py lines
1196-1206) from the extraction result: only source URL and display
metadata are stored, with status ready. -/
def quick_download_entry (download_id url : String) (vi : VideoInfo) : DownloadEntry :=
  { id := download_id
    url := url
    status := "ready"
    platform := vi.platform
    title := vi.title
    filename := vi.filename
    filesize := vi.filesize
    dltype := "streaming" }

/-- One chunk delivered by response.iter_content: the wall-clock second
at which the loop iteration runs (time.time(), modelled as Nat seconds)
and the chunk bytes (modelled as code points 0..255). -/
structure Chunk where
  time : Nat
  data : List Nat
deriving DecidableEq, Repr

/-- The observable behaviour of one upstream GET issued by
perform_streaming: final HTTP status and reason, the content-length
header value (0 when absent, matching int(...get('content-length', 0))),
the chunks iter_content delivers, and an optional transport error raised
by iter_content after those chunks. -/
structure FetchResponse where
  status : Nat
  reason : String
  contentLength : Nat
  chunks : List Chunk
  midError : Option String
deriving DecidableEq, Repr

/-- Accumulated effects of the chunk loop of perform_streaming (app.py
lines 1509-1538): chunks yielded to the sink, the downloaded_bytes
values of the emitted download_progress events, the successive values
assigned to the entry's status key, and the final entry. -/
structure ChunkLoopOut where
  yielded : List (List Nat)
  progress : List Nat
  statusUpdates : List String
  entry : DownloadEntry
deriving Repr

/-- The chunk loop of perform_streaming (app.py lines 1509-1538): skip
empty chunks; add the chunk length to downloaded; when at least one
second has elapsed since the last progress emission or downloaded has
reached total_size, publish a progress event carrying downloaded and
merge it into the registry entry (which keeps status streaming); then
yield the chunk. -/
def stream_chunks (total : Nat) (chunks : List Chunk) (downloaded lastT : Nat)
    (e : DownloadEntry) : ChunkLoopOut :=
  match chunks with
  | [] => { yielded := [], progress := [], statusUpdates := [], entry := e }
  | c :: rest =>
    if c.data = [] then stream_chunks total rest downloaded lastT e
    else
      let d2 := downloaded + c.data.length
      if 1 ≤ c.time - lastT ∨ total ≤ d2 then
        let e2 := { e with status := "streaming", downloaded_bytes := d2, total_bytes := total }
        let out := stream_chunks total rest d2 c.time e2
        { yielded := c.data :: out.yielded
          progress := d2 :: out.progress
          statusUpdates := "streaming" :: out.statusUpdates
          entry := out.entry }
      else
        let out := stream_chunks total rest d2 lastT e
        { yielded := c.data :: out.yielded
          progress := out.progress
          statusUpdates := out.statusUpdates
          entry := out.entry }

/-- Events of one perform_streaming call: chunks yielded, progress
events emitted, status assignments, final registry entry, and the
exception propagated to the caller (none when the generator ran to
completion). -/
structure StreamEvents where
  yielded : List (List Nat)
  progress : List Nat
  statusUpdates : List String
  entry : DownloadEntry
  result : Option String
deriving Repr

/-- The exception message for an upstream 403 (app.py line 1484). -/
def http403Msg (directUrl : String) : String := "403 Forbidden: " ++ directUrl

/-- The exception message for an upstream 404 (app.py line 1486). -/
def http404Msg : String := "404 Not Found: Video may have been deleted"

/-- The exception message for other upstream 4xx/5xx (app.py line 1488). -/
def httpErrMsg (code : Nat) (reason : String) : String :=
  "HTTP " ++ toString code ++ ": " ++ reason

/-- perform_streaming (app.py lines 1417-1571): issue the GET (its
observable behaviour is the FetchResponse); a 403, 404 or other 4xx/5xx
status raises before any byte is yielded and before the registry entry
is touched; otherwise the entry gets total_bytes and status streaming,
the chunk loop runs, and then either the transport error raised by
iter_content propagates, or the entry is marked completed.  Header
shaping, the urllib3 retry adapter (which only retries 429/5xx
internally) and the float telemetry fields are not modelled. -/
def perform_streaming (direct_url : String) (resp : FetchResponse) (startTime : Nat)
    (e : DownloadEntry) : StreamEvents :=
  if resp.status = 403 then
    { yielded := [], progress := [], statusUpdates := [], entry := e
      result := some (http403Msg direct_url) }
  else if resp.status = 404 then
    { yielded := [], progress := [], statusUpdates := [], entry := e
      result := some http404Msg }
  else if 400 ≤ resp.status then
    { yielded := [], progress := [], statusUpdates := [], entry := e
      result := some (httpErrMsg resp.status resp.reason) }
  else
    let total := resp.contentLength
    let e1 := { e with total_bytes := total, status := "streaming" }
    let out := stream_chunks total resp.chunks 0 startTime e1
    match resp.midError with
    | some err =>
      { yielded := out.yielded, progress := out.progress
        statusUpdates := "streaming" :: out.statusUpdates
        entry := out.entry, result := some err }
    | none =>
      { yielded := out.yielded, progress := out.progress
        statusUpdates := "streaming" :: (out.statusUpdates ++ ["completed"])
        entry := { out.entry with status := "completed" }
        result := none }

/-- The environment of one retry iteration of handle_regular_streaming:
the outcome of the fresh extract_direct_url call made at the top of the
attempt, the behaviour of the GET that would be issued on the freshly
resolved URL, and the wall-clock second at which streaming starts. -/
structure Attempt where
  extract : Except String VideoInfo
  fetch : FetchResponse
  startTime : Nat

/-- Models str.encode applied to the error text yielded into the byte
stream: the list of code points (nonempty iff the string is nonempty;
multi-byte encoding detail is immaterial to the claims). -/
def strBytes (s : String) : List Nat := s.data.map Char.toNat

/-- The final failure message of handle_regular_streaming (app.py line
1401), with max_retries = 3. -/
def regularFailMsg (e : String) : String :=
  "Regular streaming failed after 3 attempts: " ++ e

/-- Accumulated effects of a whole handle_regular_streaming run: all
chunks yielded to the sink (in order), all progress event values, all
status assignments, the direct URLs actually fetched (one GET per
attempt that got past extraction), the number of extract_direct_url
calls made, and the final registry entry. -/
structure RunOut where
  yielded : List (List Nat)
  progress : List Nat
  statusUpdates : List String
  fetched : List String
  extracts : Nat
  entry : DownloadEntry
deriving Repr

/-- The retry loop body of handle_regular_streaming (app.py lines
1369-1415) over the list of remaining attempts (the loop runs
max_retries = 3 attempts, so it is entered with a three-element list;
the list becoming a singleton corresponds to retry = max_retries - 1).
Each attempt re-runs extraction; an extraction failure or a
perform_streaming exception is caught, and either the loop continues
with the next attempt (the backoff sleep is not modelled) or, on the
last attempt, the entry is marked error with regularFailMsg and the
encoded message text is yielded into the byte stream. -/
def regular_go : List Attempt → DownloadEntry → RunOut
  | [], e =>
    { yielded := [], progress := [], statusUpdates := [], fetched := [], extracts := 0, entry := e }
  | a :: rest, e =>
    match a.extract with
    | Except.error ex =>
      if rest.isEmpty then
        { yielded := [strBytes (regularFailMsg ex)], progress := [], statusUpdates := ["error"]
          fetched := [], extracts := 1
          entry := { e with status := "error", error := some (regularFailMsg ex) } }
      else
        { yielded := (regular_go rest e).yielded
          progress := (regular_go rest e).progress
          statusUpdates := (regular_go rest e).statusUpdates
          fetched := (regular_go rest e).fetched
          extracts := (regular_go rest e).extracts + 1
          entry := (regular_go rest e).entry }
    | Except.ok vi =>
      match (perform_streaming vi.direct_url a.fetch a.startTime e).result with
      | none =>
        { yielded := (perform_streaming vi.direct_url a.fetch a.startTime e).yielded
          progress := (perform_streaming vi.direct_url a.fetch a.startTime e).progress
          statusUpdates := (perform_streaming vi.direct_url a.fetch a.startTime e).statusUpdates
          fetched := [vi.direct_url], extracts := 1
          entry := (perform_streaming vi.direct_url a.fetch a.startTime e).entry }
      | some ex =>
        if rest.isEmpty then
          { yielded := (perform_streaming vi.direct_url a.fetch a.startTime e).yielded ++
              [strBytes (regularFailMsg ex)]
            progress := (perform_streaming vi.direct_url a.fetch a.startTime e).progress
            statusUpdates := (perform_streaming vi.direct_url a.fetch a.startTime e).statusUpdates ++
              ["error"]
            fetched := [vi.direct_url], extracts := 1
            entry := { (perform_streaming vi.direct_url a.fetch a.startTime e).entry with
              status := "error", error := some (regularFailMsg ex) } }
        else
          { yielded := (perform_streaming vi.direct_url a.fetch a.startTime e).yielded ++
              (regular_go rest (perform_streaming vi.direct_url a.fetch a.startTime e).entry).yielded
            progress := (perform_streaming vi.direct_url a.fetch a.startTime e).progress ++
              (regular_go rest (perform_streaming vi.direct_url a.fetch a.startTime e).entry).progress
            statusUpdates := (perform_streaming vi.direct_url a.fetch a.startTime e).statusUpdates ++
              (regular_go rest (perform_streaming vi.direct_url a.fetch a.startTime e).entry).statusUpdates
            fetched := vi.direct_url ::
              (regular_go rest (perform_streaming vi.direct_url a.fetch a.startTime e).entry).fetched
            extracts :=
              (regular_go rest (perform_streaming vi.direct_url a.fetch a.startTime e).entry).extracts + 1
            entry := (regular_go rest (perform_streaming vi.direct_url a.fetch a.startTime e).entry).entry }

/-- handle_regular_streaming (app.py lines 1369-1415): the retry loop
entered with its three attempts. -/
def handle_regular_streaming (a0 a1 a2 : Attempt) (e : DownloadEntry) : RunOut :=
  regular_go [a0, a1, a2] e

/-- The generate_stream generator of stream_video for a non-TikTok
platform (app.py lines 1236-1250): the entry's status is set to
streaming before any extraction or fetch, then handle_regular_streaming
runs (its internal try/except prevents any exception from reaching the
outer except clause). -/
def generate_stream (a0 a1 a2 : Attempt) (e : DownloadEntry) : RunOut :=
  let e1 := { e with status := "streaming" }
  let r := handle_regular_streaming a0 a1 a2 e1
  { r with statusUpdates := "streaming" :: r.statusUpdates }

/-- The status whitelist of clear_downloads (app.py line 1662): entries
whose status is in this list survive the sweep. -/
def keepStatuses : List String := ["queued", "starting", "streaming", "ready"]

/-- clear_downloads (app.py lines 1654-1672): rebuild the registry
keeping exactly the entries whose status is in keepStatuses (the dict
comprehension is modelled on the list of entries). -/
def clear_downloads (m : List DownloadEntry) : List DownloadEntry :=
  m.filter (fun e => keepStatuses.contains e.status)

/-- The transition relation asserted by the specification: Ready to
Streaming, Streaming to Completed, Streaming to Failed (status error in
the code), and nothing else. -/
def claimAllowedTransition (a b : String) : Bool :=
  (a = "ready" && b = "streaming") || (a = "streaming" && b = "completed") ||
    (a = "streaming" && b = "error")

/-- Checks a status assignment trace against claimAllowedTransition,
treating a re-assignment of the current status as a stutter rather than
a transition. -/
def chainOk (prev : String) : List String → Bool
  | [] => true
  | s :: rest => (s = prev || claimAllowedTransition prev s) && chainOk s rest

/-- Boolean non-decreasing check on a list of naturals. -/
def sortedNat : List Nat → Bool
  | [] => true
  | [_] => true
  | a :: b :: rest => a ≤ b && sortedNat (b :: rest)

/- ----------------------------------------------------------------
   Chain lemmas.
   ---------------------------------------------------------------- -/

theorem runChainCore_first_success (pre post : List (String × Strat)) (nm : String)
    (s : Strat) (url : String) (v : VideoInfo)
    (hpre : ∀ p ∈ pre, ∃ e, p.2 url = Except.error e)
    (hs : s url = Except.ok v) :
    (runChainCore (pre ++ (nm, s) :: post) url).2.2 = some v ∧
    (runChainCore (pre ++ (nm, s) :: post) url).1 = pre.map Prod.fst ++ [nm] := by
  induction pre with
  | nil => simp [runChainCore, hs]
  | cons p pre ih =>
    obtain ⟨e, he⟩ := hpre p (List.mem_cons_self p pre)
    have ihh := ih (fun q hq => hpre q (List.mem_cons_of_mem p hq))
    obtain ⟨p1, p2⟩ := p
    have he2 : p2 url = Except.error e := he
    simp only [List.cons_append, runChainCore, he2]
    simp [ihh.1, ihh.2]

theorem runChainCore_all_fail (ms : List (String × Strat)) (url : String)
    (msg : String × Strat → String)
    (h : ∀ p ∈ ms, p.2 url = Except.error (msg p)) :
    (runChainCore ms url).2.2 = none ∧
    (runChainCore ms url).2.1 = ms.map (fun p => p.1 ++ ": " ++ msg p) := by
  induction ms with
  | nil => simp [runChainCore]
  | cons p rest ih =>
    have hp := h p (List.mem_cons_self p rest)
    have ihh := ih (fun q hq => h q (List.mem_cons_of_mem p hq))
    obtain ⟨p1, p2⟩ := p
    have hp2 : p2 url = Except.error (msg (p1, p2)) := hp
    simp only [runChainCore, hp2, ihh.1, ihh.2, List.map_cons]
    simp

/- ----------------------------------------------------------------
   Claim C1.
   ---------------------------------------------------------------- -/

/-- C1: for every input URL, the extraction cascade of
extract_tiktok_video invokes its methods strictly in the configured
order; as soon as one method succeeds (in the source, returns instead of
raising - every concrete method raises rather than returning an empty
direct URL, see app.py lines 564-565, 735-736, 770-771, 840-841 and the
per-service guards), the cascade returns that method's result
immediately and none of the remaining methods is invoked: the list of
invoked labels is exactly the failing prefix followed by the winner. -/
theorem c1_chain_first_success_wins (pre post : List (String × Strat)) (nm : String)
    (s : Strat) (url : String) (v : VideoInfo)
    (hpre : ∀ p ∈ pre, ∃ e, p.2 url = Except.error e)
    (hs : s url = Except.ok v) :
    (extract_tiktok_video (pre ++ (nm, s) :: post) url).outcome = Except.ok v ∧
    (extract_tiktok_video (pre ++ (nm, s) :: post) url).invoked = pre.map Prod.fst ++ [nm] := by
  have h := runChainCore_first_success pre post nm s url v hpre hs
  exact ⟨by simp [extract_tiktok_video, h.1], by simp [extract_tiktok_video, h.2]⟩

/-- Demonstration extraction result used by concrete witnesses. -/
def demoVI : VideoInfo :=
  { direct_url := "https://cdn.example/v.mp4", title := "demo", filename := "demo.mp4"
    filesize := none, platform := "tiktok" }

/-- Witness for c1_chain_first_success_wins: first method fails, second
succeeds, third is configured after the winner and is never invoked. -/
theorem c1_chain_first_success_wins_witness :
    (extract_tiktok_video ([("yt-dlp method", fun _ => Except.error "netdown")] ++
        ("API rotation", fun _ => Except.ok demoVI) ::
        [("Browser simulation", fun _ => Except.error "later")]) "https://www.tiktok.com/v").outcome
      = Except.ok demoVI ∧
    (extract_tiktok_video ([("yt-dlp method", fun _ => Except.error "netdown")] ++
        ("API rotation", fun _ => Except.ok demoVI) ::
        [("Browser simulation", fun _ => Except.error "later")]) "https://www.tiktok.com/v").invoked
      = ["yt-dlp method", "API rotation"] :=
  c1_chain_first_success_wins
    [("yt-dlp method", fun _ => Except.error "netdown")]
    [("Browser simulation", fun _ => Except.error "later")]
    "API rotation" (fun _ => Except.ok demoVI) "https://www.tiktok.com/v" demoVI
    (by
      intro p hp
      simp only [List.mem_singleton] at hp
      subst hp
      exact ⟨"netdown", rfl⟩)
    rfl

/- ----------------------------------------------------------------
   Claim C2.
   ---------------------------------------------------------------- -/

/-- C2 counterexample: when every method of the TikTok cascade fails,
the exception surfaced to the caller (app.py line 107) is the fixed
sentence tiktokFailMsg, which does NOT contain the per-method failure
reason: here the only strategy fails with the reason
Timeout fetching page, and that reason is not a substring of the
surfaced detail.  The per-strategy reasons reach only the log (line
105).  This falsifies the claim that the surfaced failure detail
contains every strategy's failure reason. -/
theorem c2_surfaced_error_drops_reasons_cex :
    (extract_tiktok_video [("yt-dlp method", fun _ => Except.error "Timeout fetching page")]
        "https://www.tiktok.com/v").outcome = Except.error tiktokFailMsg ∧
    strHasSub "Timeout fetching page" tiktokFailMsg = false := by
  exact ⟨rfl, by decide⟩

/-- C2 as amended: if every method of the cascade fails, the exception
surfaced to the caller is the fixed sentence tiktokFailMsg (the
per-method reasons are not part of it); the per-method failure reasons
are accumulated exactly once each, in configured order, in the internal
error list, whose aggregate (app.py line 105) is only logged. -/
theorem c2_all_fail_fixed_message (ms : List (String × Strat)) (url : String)
    (msg : String × Strat → String)
    (h : ∀ p ∈ ms, p.2 url = Except.error (msg p)) :
    (extract_tiktok_video ms url).outcome = Except.error tiktokFailMsg ∧
    (extract_tiktok_video ms url).errors = ms.map (fun p => p.1 ++ ": " ++ msg p) ∧
    aggregateLog (extract_tiktok_video ms url).errors =
      "All TikTok extraction methods failed:\n" ++
        String.intercalate "\n" (ms.map (fun p => p.1 ++ ": " ++ msg p)) := by
  have h2 := runChainCore_all_fail ms url msg h
  refine ⟨by simp [extract_tiktok_video, h2.1], by simp [extract_tiktok_video, h2.2], ?_⟩
  simp [extract_tiktok_video, aggregateLog, h2.2]

/-- Witness for c2_all_fail_fixed_message on a concrete two-method
cascade with distinct failure reasons. -/
theorem c2_all_fail_fixed_message_witness :
    (extract_tiktok_video [("yt-dlp method", fun _ => Except.error "err A"),
        ("API rotation", fun _ => Except.error "err B")] "u").outcome
      = Except.error tiktokFailMsg ∧
    (extract_tiktok_video [("yt-dlp method", fun _ => Except.error "err A"),
        ("API rotation", fun _ => Except.error "err B")] "u").errors
      = ["yt-dlp method" ++ ": " ++ "err A", "API rotation" ++ ": " ++ "err B"] ∧
    aggregateLog (extract_tiktok_video [("yt-dlp method", fun _ => Except.error "err A"),
        ("API rotation", fun _ => Except.error "err B")] "u").errors
      = "All TikTok extraction methods failed:\n" ++
          String.intercalate "\n"
            ["yt-dlp method" ++ ": " ++ "err A", "API rotation" ++ ": " ++ "err B"] :=
  c2_all_fail_fixed_message
    [("yt-dlp method", fun _ => Except.error "err A"),
     ("API rotation", fun _ => Except.error "err B")] "u"
    (fun p => if p.1 = "yt-dlp method" then "err A" else "err B")
    (by
      intro p hp
      rcases List.mem_cons.mp hp with h1 | h1
      · subst h1; rfl
      · simp only [List.mem_singleton] at h1
        subst h1; rfl)

/- ----------------------------------------------------------------
   Claim C8.
   ---------------------------------------------------------------- -/

/-- C8 counterexample: the claim says a URL with unknown detected
platform fails immediately with an UnsupportedPlatform condition and no
extraction strategy is invoked.  The code has no such rejection: for a
URL detected as unknown, extract_direct_url routes to
_extract_other_platform, which ends in _extract_generic_platform - a
yt-dlp network extraction attempt (app.py lines 989-993) - and the call
can even succeed.  Here the concrete URL detects as unknown, the
generic yt-dlp strategy IS invoked, and the facade returns its
(successful) result instead of failing. -/
theorem c8_unknown_platform_attempts_generic_cex :
    detect_platform "https://example.com/video" = "unknown" ∧
    (extract_direct_url (fun _ => Except.error "tk") (fun _ => Except.error "yt")
        (fun _ _ => Except.ok demoVI) "https://example.com/video").genericCalled = true ∧
    (extract_direct_url (fun _ => Except.error "tk") (fun _ => Except.error "yt")
        (fun _ _ => Except.ok demoVI) "https://example.com/video").result = Except.ok demoVI := by
  exact ⟨by decide, by decide, rfl⟩

/-- C8 as amended: a URL whose detected platform is unknown is NOT
rejected; the facade always invokes the generic yt-dlp extraction on it
(passing the unknown tag through), and the facade's outcome is exactly
the outcome of that network attempt. -/
theorem c8_unknown_routes_to_generic (tk yt : String → Except String VideoInfo)
    (g : String → String → Except String VideoInfo) (url : String)
    (h : detect_platform url = "unknown") :
    (extract_direct_url tk yt g url).genericCalled = true ∧
    (extract_direct_url tk yt g url).result = g url "unknown" ∧
    (extract_direct_url tk yt g url).route = "generic_yt_dlp" := by
  simp [extract_direct_url, h]

/-- Witness for c8_unknown_routes_to_generic at a concrete unknown URL
and concrete oracles. -/
theorem c8_unknown_routes_to_generic_witness :
    (extract_direct_url (fun _ => Except.error "tk") (fun _ => Except.error "yt")
        (fun _ _ => Except.error "no formats") "https://vimeo.com/12345").genericCalled = true ∧
    (extract_direct_url (fun _ => Except.error "tk") (fun _ => Except.error "yt")
        (fun _ _ => Except.error "no formats") "https://vimeo.com/12345").result
      = (fun (_ : String) (_ : String) => (Except.error "no formats" : Except String VideoInfo)) "https://vimeo.com/12345" "unknown" ∧
    (extract_direct_url (fun _ => Except.error "tk") (fun _ => Except.error "yt")
        (fun _ _ => Except.error "no formats") "https://vimeo.com/12345").route = "generic_yt_dlp" :=
  c8_unknown_routes_to_generic (fun _ => Except.error "tk") (fun _ => Except.error "yt")
    (fun _ _ => Except.error "no formats") "https://vimeo.com/12345" (by decide)

/- ----------------------------------------------------------------
   Claim C9.
   ---------------------------------------------------------------- -/

theorem mem_of_mem_dropWhile {α : Type} {p : α → Bool} {l : List α} {c : α}
    (h : c ∈ l.dropWhile p) : c ∈ l := by
  induction l with
  | nil => simp at h
  | cons x rest ih =>
    by_cases hp : p x = true
    · rw [List.dropWhile_cons_of_pos hp] at h
      exact List.mem_cons_of_mem x (ih h)
    · rw [List.dropWhile_cons_of_neg hp] at h
      exact h

theorem mem_collapseRuns {p : Char → Bool} {l : List Char} {c : Char}
    (h : c ∈ collapseRuns p l) : c = '-' ∨ (c ∈ l ∧ p c = false) := by
  induction l with
  | nil => simp [collapseRuns] at h
  | cons x rest ih =>
    simp only [collapseRuns] at h
    by_cases hp : p x = true
    · rw [if_pos hp] at h
      cases htr : collapseRuns p rest with
      | nil =>
        rw [htr] at h
        simp at h
        exact Or.inl h
      | cons d ds =>
        rw [htr] at h
        have h2m : c ∈ (if d = '-' then '-' :: ds else '-' :: d :: ds) := h
        by_cases hd : d = '-'
        · rw [if_pos hd] at h2m
          rcases List.mem_cons.mp h2m with h1 | h1
          · exact Or.inl h1
          · have hmem : c ∈ collapseRuns p rest := by
              rw [htr]; exact List.mem_cons_of_mem d h1
            rcases ih hmem with h2 | h2
            · exact Or.inl h2
            · exact Or.inr ⟨List.mem_cons_of_mem x h2.1, h2.2⟩
        · rw [if_neg hd] at h2m
          rcases List.mem_cons.mp h2m with h1 | h1
          · exact Or.inl h1
          · have hmem : c ∈ collapseRuns p rest := by rw [htr]; exact h1
            rcases ih hmem with h2 | h2
            · exact Or.inl h2
            · exact Or.inr ⟨List.mem_cons_of_mem x h2.1, h2.2⟩
    · rw [if_neg hp] at h
      rcases List.mem_cons.mp h with h1 | h1
      · subst h1
        exact Or.inr ⟨List.mem_cons_self c rest, Bool.eq_false_iff.mpr hp⟩
      · rcases ih h1 with h2 | h2
        · exact Or.inl h2
        · exact Or.inr ⟨List.mem_cons_of_mem x h2.1, h2.2⟩

theorem mem_stripEnds {l : List Char} {c : Char} (h : c ∈ stripEnds l) : c ∈ l := by
  unfold stripEnds at h
  rw [List.mem_reverse] at h
  have h2 := mem_of_mem_dropWhile h
  rw [List.mem_reverse] at h2
  exact mem_of_mem_dropWhile h2

/-- Characters surviving the full cleaning pipeline are either the dash
or word characters drawn from the input with the filesystem-special
characters already removed. -/
theorem clean_pipeline_char_safe (isW isS : Char → Bool)
    (hW : ∀ c, isCtrl c = true → isW c = false) (l : List Char) (c : Char)
    (h : c ∈ stripEnds (collapseRuns (fun c => isS c || c = '-')
      ((l.filter (fun c => !(badFsChars.contains c))).filter
        (fun c => isW c || isS c || c = '-')))) :
    isCtrl c = false ∧ c ≠ '/' ∧ c ≠ '\\' := by
  rcases mem_collapseRuns (mem_stripEnds h) with h1 | h1
  · subst h1
    refine ⟨by decide, by decide, by decide⟩
  · obtain ⟨hmem2, hnp⟩ := h1
    rw [List.mem_filter] at hmem2
    obtain ⟨hmem1, hclass⟩ := hmem2
    rw [List.mem_filter] at hmem1
    obtain ⟨_, hbad⟩ := hmem1
    simp only [Bool.or_eq_true, decide_eq_true_eq] at hclass
    simp only [Bool.or_eq_false_iff, decide_eq_false_iff_not] at hnp
    have hw : isW c = true := by
      rcases hclass with (h2 | h2) | h2
      · exact h2
      · rw [hnp.1] at h2; exact Bool.noConfusion h2
      · exact absurd h2 hnp.2
    refine ⟨?_, ?_, ?_⟩
    · by_contra hc
      rw [Bool.not_eq_false] at hc
      rw [hW c hc] at hw
      exact absurd hw (by simp)
    · intro hc
      subst hc
      simp [badFsChars] at hbad
    · intro hc
      subst hc
      simp [badFsChars] at hbad

/-- C9: for every input title string, including the empty string and
adversarial inputs, the cleaned filename is non-empty, contains no path
separator (slash or backslash) and no control character, and its length
is capped at the fixed bound 30 (the code truncates with the slice of
the first 30 characters).  The theorem is stated for any word and
whitespace character classes of the two regexes with the sole (true of
Python's Unicode classes) assumption that no control character is a
word character; clean_filename instantiates them with the ASCII
classes. -/
theorem c9_clean_filename_safe (isW isS : Char → Bool)
    (hW : ∀ c, isCtrl c = true → isW c = false) (filename : String) :
    (clean_fn_gen isW isS filename).data ≠ [] ∧
    (clean_fn_gen isW isS filename).data.length ≤ 30 ∧
    ∀ c ∈ (clean_fn_gen isW isS filename).data,
      isCtrl c = false ∧ c ≠ '/' ∧ c ≠ '\\' := by
  unfold clean_fn_gen
  by_cases h0 : filename = ""
  · rw [if_pos h0]
    exact ⟨by decide, by decide, by decide⟩
  · rw [if_neg h0]
    by_cases h4 : stripEnds (collapseRuns (fun c => isS c || c = '-')
        ((filename.data.filter (fun c => !(badFsChars.contains c))).filter
          (fun c => isW c || isS c || c = '-'))) = []
    · rw [if_pos h4]
      exact ⟨by decide, by decide, by decide⟩
    · rw [if_neg h4]
      refine ⟨?_, ?_, ?_⟩
      · cases hs : stripEnds (collapseRuns (fun c => isS c || c = '-')
            ((filename.data.filter (fun c => !(badFsChars.contains c))).filter
              (fun c => isW c || isS c || c = '-'))) with
        | nil => exact absurd hs h4
        | cons d ds => simp [hs, List.take]
      · simp only [String.data]
        rw [List.length_take]
        exact min_le_left 30 _
      · intro c hc
        simp only [String.data] at hc
        exact clean_pipeline_char_safe isW isS hW filename.data c
          ((List.take_sublist 30 _).mem hc)

/-- Witness for c9_clean_filename_safe: the ASCII classes satisfy the
control-character assumption, applied to an adversarial concrete title
containing separators, control characters and specials. -/
theorem c9_clean_filename_safe_witness :
    (clean_fn_gen wordCharAscii spaceCharAscii "../../etc\x00/pass\nwd <|>?*").data ≠ [] ∧
    (clean_fn_gen wordCharAscii spaceCharAscii "../../etc\x00/pass\nwd <|>?*").data.length ≤ 30 ∧
    ∀ c ∈ (clean_fn_gen wordCharAscii spaceCharAscii "../../etc\x00/pass\nwd <|>?*").data,
      isCtrl c = false ∧ c ≠ '/' ∧ c ≠ '\\' :=
  c9_clean_filename_safe wordCharAscii spaceCharAscii
    (by
      intro c hc
      simp only [isCtrl, Bool.or_eq_true, Bool.and_eq_true, decide_eq_true_eq] at hc
      by_contra hw
      rw [Bool.not_eq_false] at hw
      simp only [wordCharAscii, Bool.or_eq_true, Bool.and_eq_true, decide_eq_true_eq] at hw
      omega)
    "../../etc\x00/pass\nwd <|>?*"

/- ----------------------------------------------------------------
   Claim C10.
   ---------------------------------------------------------------- -/

theorem all_not_eq_not_any {α : Type} (l : List α) (f : α → Bool) :
    l.all (fun x => !(f x)) = !(l.any f) := by
  induction l with
  | nil => simp
  | cons x rest ih => simp [List.all_cons, List.any_cons, ih]

/-- C10 counterexample: app.py detect_platform matches the pattern
table against the whole lowercased URL, not against the hostname.  The
concrete URL below has hostname example.com, which matches none of the
configured host patterns (third conjunct), yet detect_platform
classifies it as tiktok because the pattern occurs in the query string;
the hostname-based video_downloader.py implementation returns unknown
on the same URL.  This falsifies the claim that a URL matching none of
the configured hostnames is classified unknown. -/
theorem c10_url_match_not_hostname_cex :
    detect_platform "https://example.com/watch?ref=tiktok.com" = "tiktok" ∧
    netloc "https://example.com/watch?ref=tiktok.com" = "example.com" ∧
    (tiktokHosts ++ youtubeHosts ++ instagramHosts ++ facebookHosts).all
      (fun p => !(strHasSub p "example.com")) = true ∧
    vd_detect_platform "https://example.com/watch?ref=tiktok.com" = "unknown" := by
  exact ⟨by decide, by decide, by decide, by decide⟩

/-- C10 as amended: both detectors are pure total functions into a
fixed tag set and cannot fail; video_downloader.py detect_platform
matches the fixed table against the URL's hostname, while app.py
detect_platform matches its table against the entire lowercased URL (so
a pattern occurring anywhere in the URL classifies it); each returns
unknown exactly when no configured pattern occurs in the text it
searches. -/
theorem c10_detect_total_table_match (url : String) :
    (detect_platform url = "unknown" ↔
      (tiktokHosts ++ youtubeHosts ++ instagramHosts ++ facebookHosts).all
        (fun p => !(strHasSub p (lowerStr url))) = true) ∧
    detect_platform url ∈ ["tiktok", "youtube", "instagram", "facebook", "unknown"] ∧
    (vd_detect_platform url = "unknown" ↔
      ∀ pr ∈ vdPlatformPatterns, pr.2.any (fun d => strHasSub d (lowerStr (netloc url))) = false) ∧
    vd_detect_platform url ∈ ["tiktok", "douyin", "youtube", "facebook", "instagram", "unknown"] := by
  refine ⟨?_, ?_, ?_, ?_⟩
  · unfold detect_platform
    simp only [List.all_append, all_not_eq_not_any, Bool.and_eq_true, Bool.not_eq_true']
    cases h1 : tiktokHosts.any (fun x => strHasSub x (lowerStr url)) <;>
      cases h2 : youtubeHosts.any (fun x => strHasSub x (lowerStr url)) <;>
        cases h3 : instagramHosts.any (fun x => strHasSub x (lowerStr url)) <;>
          cases h4 : facebookHosts.any (fun x => strHasSub x (lowerStr url)) <;>
            simp [h1, h2, h3, h4]
  · unfold detect_platform
    cases h1 : tiktokHosts.any (fun x => strHasSub x (lowerStr url)) <;>
      cases h2 : youtubeHosts.any (fun x => strHasSub x (lowerStr url)) <;>
        cases h3 : instagramHosts.any (fun x => strHasSub x (lowerStr url)) <;>
          cases h4 : facebookHosts.any (fun x => strHasSub x (lowerStr url)) <;>
            simp [h1, h2, h3, h4]
  · unfold vd_detect_platform
    cases hf : vdPlatformPatterns.find?
        (fun p => p.2.any (fun d => strHasSub d (lowerStr (netloc url)))) with
    | none =>
      constructor
      · intro _ pr hpr
        have h2 := List.find?_eq_none.mp hf pr hpr
        simpa using h2
      · intro _
        rfl
    | some pr0 =>
      have hmem := List.mem_of_find?_eq_some hf
      have hprop := List.find?_some hf
      constructor
      · intro htag
        exfalso
        simp only [vdPlatformPatterns, List.mem_cons, List.not_mem_nil, or_false] at hmem
        rcases hmem with h | h | h | h | h <;> rw [h] at htag <;> simp at htag
      · intro hall
        rw [hall pr0 hmem] at hprop
        exact Bool.noConfusion hprop
  · unfold vd_detect_platform
    cases hf : vdPlatformPatterns.find?
        (fun p => p.2.any (fun d => strHasSub d (lowerStr (netloc url)))) with
    | none =>
      simp
    | some pr0 =>
      have hmem := List.mem_of_find?_eq_some hf
      simp only [vdPlatformPatterns, List.mem_cons, List.not_mem_nil, or_false] at hmem
      rcases hmem with h | h | h | h | h <;> rw [h] <;> simp

/- ----------------------------------------------------------------
   Streaming lemmas.
   ---------------------------------------------------------------- -/

theorem strHasSub_append_left (n a b : String) (h : strHasSub n a = true) :
    strHasSub n (a ++ b) = true := by
  unfold strHasSub at *
  have hd : (a ++ b).data = a.data ++ b.data := by
    cases a
    cases b
    rfl
  rw [hd]
  exact hasSub_append_left _ h

theorem stream_chunks_indep (total : Nat) (cs : List Chunk) (d lt : Nat)
    (e eo : DownloadEntry) :
    (stream_chunks total cs d lt e).yielded = (stream_chunks total cs d lt eo).yielded ∧
    (stream_chunks total cs d lt e).progress = (stream_chunks total cs d lt eo).progress ∧
    (stream_chunks total cs d lt e).statusUpdates = (stream_chunks total cs d lt eo).statusUpdates := by
  induction cs generalizing d lt e eo with
  | nil => exact ⟨rfl, rfl, rfl⟩
  | cons c rest ih =>
    simp only [stream_chunks]
    split_ifs with h1 h2
    · exact ih d lt e eo
    · have h3 := ih (d + c.data.length) c.time
        { e with status := "streaming", downloaded_bytes := d + c.data.length, total_bytes := total }
        { eo with status := "streaming", downloaded_bytes := d + c.data.length, total_bytes := total }
      exact ⟨by simp [h3.1], by simp [h3.2.1], by simp [h3.2.2]⟩
    · have h3 := ih (d + c.data.length) lt e eo
      exact ⟨by simp [h3.1], by simp [h3.2.1], by simp [h3.2.2]⟩

theorem perform_streaming_indep (u : String) (resp : FetchResponse) (t : Nat)
    (e eo : DownloadEntry) :
    (perform_streaming u resp t e).result = (perform_streaming u resp t eo).result ∧
    (perform_streaming u resp t e).yielded = (perform_streaming u resp t eo).yielded ∧
    (perform_streaming u resp t e).progress = (perform_streaming u resp t eo).progress := by
  unfold perform_streaming
  split_ifs with h1 h2 h3
  · exact ⟨rfl, rfl, rfl⟩
  · exact ⟨rfl, rfl, rfl⟩
  · exact ⟨rfl, rfl, rfl⟩
  · have h4 := stream_chunks_indep resp.contentLength resp.chunks 0 t
      { e with total_bytes := resp.contentLength, status := "streaming" }
      { eo with total_bytes := resp.contentLength, status := "streaming" }
    cases resp.midError with
    | some err => exact ⟨rfl, by simp [h4.1], by simp [h4.2.1]⟩
    | none => exact ⟨rfl, by simp [h4.1], by simp [h4.2.1]⟩

theorem perform_completed_of_result_none (u : String) (resp : FetchResponse) (t : Nat)
    (e : DownloadEntry) (h : (perform_streaming u resp t e).result = none) :
    (perform_streaming u resp t e).entry.status = "completed" := by
  unfold perform_streaming at h ⊢
  cases hm : resp.midError with
  | some err =>
    simp only [hm] at h
    split_ifs at h
  | none =>
    simp only [hm] at h ⊢
    split_ifs at h ⊢
    simp_all

theorem stream_chunks_status_all (total : Nat) (cs : List Chunk) (d lt : Nat)
    (e : DownloadEntry) :
    ∀ x ∈ (stream_chunks total cs d lt e).statusUpdates, x = "streaming" := by
  induction cs generalizing d lt e with
  | nil =>
    intro x hx
    simp [stream_chunks] at hx
  | cons c rest ih =>
    intro x hx
    simp only [stream_chunks] at hx
    split_ifs at hx with h1 h2
    · exact ih d lt e x hx
    · simp only [List.mem_cons] at hx
      rcases hx with hx | hx
      · exact hx
      · exact ih _ _ _ x hx
    · exact ih _ _ _ x hx

theorem stream_chunks_progress_sorted (total : Nat) (cs : List Chunk) (d lt : Nat)
    (e : DownloadEntry) :
    sortedNat (stream_chunks total cs d lt e).progress = true ∧
    ∀ x ∈ (stream_chunks total cs d lt e).progress, d ≤ x := by
  induction cs generalizing d lt e with
  | nil => exact ⟨rfl, by intro x hx; simp [stream_chunks] at hx⟩
  | cons c rest ih =>
    simp only [stream_chunks]
    split_ifs with h1 h2
    · exact ih d lt e
    · have h3 := ih (d + c.data.length) c.time
        { e with status := "streaming", downloaded_bytes := d + c.data.length, total_bytes := total }
      constructor
      · simp only []
        cases hp : (stream_chunks total rest (d + c.data.length) c.time { e with status := "streaming", downloaded_bytes := d + c.data.length, total_bytes := total }).progress with
        | nil => rfl
        | cons y ys =>
          have hy : d + c.data.length ≤ y := by
            apply h3.2
            rw [hp]
            exact List.mem_cons_self y ys
          have hs : sortedNat (y :: ys) = true := by rw [← hp]; exact h3.1
          simp only [sortedNat, Bool.and_eq_true, decide_eq_true_eq]
          exact ⟨hy, hs⟩
      · intro x hx
        simp only [List.mem_cons] at hx
        rcases hx with hx | hx
        · subst hx
          exact Nat.le_add_right d c.data.length
        · exact le_trans (Nat.le_add_right d c.data.length) (h3.2 x hx)
    · have h3 := ih (d + c.data.length) lt e
      exact ⟨h3.1, fun x hx =>
        le_trans (Nat.le_add_right d c.data.length) (h3.2 x hx)⟩

theorem chainOk_cons (prev st : String) (l : List String) :
    chainOk prev (st :: l) =
      ((st = prev || claimAllowedTransition prev st) && chainOk st l) := rfl

theorem chainOk_all_streaming_append (l1 l2 : List String)
    (h : ∀ x ∈ l1, x = "streaming") :
    chainOk "streaming" (l1 ++ l2) = chainOk "streaming" l2 := by
  induction l1 with
  | nil => rfl
  | cons x rest ih =>
    have hx := h x (List.mem_cons_self x rest)
    subst hx
    have ih2 := ih (fun y hy => h y (List.mem_cons_of_mem _ hy))
    rw [List.cons_append, chainOk_cons, ih2]
    simp

/-- The shape of perform_streaming status assignments: on an HTTP error
there are none; on a transport failure they are all streaming; on
success they are streaming assignments followed by one final completed. -/
theorem perform_status_shape (u : String) (resp : FetchResponse) (t : Nat)
    (e : DownloadEntry) :
    ((perform_streaming u resp t e).result = none →
      ∃ mid, (∀ x ∈ mid, x = "streaming") ∧
        (perform_streaming u resp t e).statusUpdates = "streaming" :: (mid ++ ["completed"])) ∧
    (∀ ex, (perform_streaming u resp t e).result = some ex →
      ∀ x ∈ (perform_streaming u resp t e).statusUpdates, x = "streaming") := by
  unfold perform_streaming
  split_ifs with h1 h2 h3
  · exact ⟨by intro h; simp at h, by intro ex _ x hx; simp at hx⟩
  · exact ⟨by intro h; simp at h, by intro ex _ x hx; simp at hx⟩
  · exact ⟨by intro h; simp at h, by intro ex _ x hx; simp at hx⟩
  · cases resp.midError with
    | some err =>
      refine ⟨by intro h; simp at h, ?_⟩
      intro ex _ x hx
      simp only [List.mem_cons] at hx
      rcases hx with hx | hx
      · exact hx
      · exact stream_chunks_status_all _ _ _ _ _ x hx
    | none =>
      refine ⟨?_, by intro ex h; simp at h⟩
      intro _
      exact ⟨(stream_chunks resp.contentLength resp.chunks 0 t
          { e with total_bytes := resp.contentLength, status := "streaming" }).statusUpdates,
        stream_chunks_status_all _ _ _ _ _, rfl⟩

theorem regular_go_err_last (a : Attempt) (e : DownloadEntry) (ex : String)
    (hx : a.extract = Except.error ex) :
    regular_go [a] e =
      { yielded := [strBytes (regularFailMsg ex)], progress := [], statusUpdates := ["error"]
        fetched := [], extracts := 1
        entry := { e with status := "error", error := some (regularFailMsg ex) } } := by
  unfold regular_go
  rw [hx]
  rfl

theorem regular_go_err_cont (a b : Attempt) (bs : List Attempt) (e : DownloadEntry) (ex : String)
    (hx : a.extract = Except.error ex) :
    regular_go (a :: b :: bs) e =
      { yielded := (regular_go (b :: bs) e).yielded
        progress := (regular_go (b :: bs) e).progress
        statusUpdates := (regular_go (b :: bs) e).statusUpdates
        fetched := (regular_go (b :: bs) e).fetched
        extracts := (regular_go (b :: bs) e).extracts + 1
        entry := (regular_go (b :: bs) e).entry } := by
  unfold regular_go
  rw [hx]
  rfl

theorem regular_go_ok_none (a : Attempt) (rest : List Attempt) (e : DownloadEntry)
    (vi : VideoInfo) (hx : a.extract = Except.ok vi)
    (hr : (perform_streaming vi.direct_url a.fetch a.startTime e).result = none) :
    regular_go (a :: rest) e =
      { yielded := (perform_streaming vi.direct_url a.fetch a.startTime e).yielded
        progress := (perform_streaming vi.direct_url a.fetch a.startTime e).progress
        statusUpdates := (perform_streaming vi.direct_url a.fetch a.startTime e).statusUpdates
        fetched := [vi.direct_url], extracts := 1
        entry := (perform_streaming vi.direct_url a.fetch a.startTime e).entry } := by
  unfold regular_go
  rw [hx]
  simp only [hr]

theorem regular_go_ok_some_last (a : Attempt) (e : DownloadEntry) (vi : VideoInfo) (ex : String)
    (hx : a.extract = Except.ok vi)
    (hr : (perform_streaming vi.direct_url a.fetch a.startTime e).result = some ex) :
    regular_go [a] e =
      { yielded := (perform_streaming vi.direct_url a.fetch a.startTime e).yielded ++
          [strBytes (regularFailMsg ex)]
        progress := (perform_streaming vi.direct_url a.fetch a.startTime e).progress
        statusUpdates := (perform_streaming vi.direct_url a.fetch a.startTime e).statusUpdates ++
          ["error"]
        fetched := [vi.direct_url], extracts := 1
        entry := { (perform_streaming vi.direct_url a.fetch a.startTime e).entry with
          status := "error", error := some (regularFailMsg ex) } } := by
  unfold regular_go
  rw [hx]
  simp only [hr]
  rfl

theorem regular_go_ok_some_cont (a b : Attempt) (bs : List Attempt) (e : DownloadEntry)
    (vi : VideoInfo) (ex : String) (hx : a.extract = Except.ok vi)
    (hr : (perform_streaming vi.direct_url a.fetch a.startTime e).result = some ex) :
    regular_go (a :: b :: bs) e =
      { yielded := (perform_streaming vi.direct_url a.fetch a.startTime e).yielded ++
          (regular_go (b :: bs) (perform_streaming vi.direct_url a.fetch a.startTime e).entry).yielded
        progress := (perform_streaming vi.direct_url a.fetch a.startTime e).progress ++
          (regular_go (b :: bs) (perform_streaming vi.direct_url a.fetch a.startTime e).entry).progress
        statusUpdates := (perform_streaming vi.direct_url a.fetch a.startTime e).statusUpdates ++
          (regular_go (b :: bs) (perform_streaming vi.direct_url a.fetch a.startTime e).entry).statusUpdates
        fetched := vi.direct_url ::
          (regular_go (b :: bs) (perform_streaming vi.direct_url a.fetch a.startTime e).entry).fetched
        extracts :=
          (regular_go (b :: bs) (perform_streaming vi.direct_url a.fetch a.startTime e).entry).extracts + 1
        entry :=
          (regular_go (b :: bs) (perform_streaming vi.direct_url a.fetch a.startTime e).entry).entry } := by
  unfold regular_go
  rw [hx]
  simp only [hr]
  rfl

theorem regular_go_chainOk (atts : List Attempt) (e : DownloadEntry) :
    chainOk "streaming" (regular_go atts e).statusUpdates = true := by
  induction atts generalizing e with
  | nil => rfl
  | cons a rest ih =>
    cases hx : a.extract with
    | error ex =>
      cases rest with
      | nil =>
        rw [regular_go_err_last a e ex hx]
        show chainOk "streaming" ["error"] = true
        decide
      | cons b bs =>
        rw [regular_go_err_cont a b bs e ex hx]
        exact ih e
    | ok vi =>
      cases hr : (perform_streaming vi.direct_url a.fetch a.startTime e).result with
      | none =>
        obtain ⟨mid, hmid, hupd⟩ :=
          (perform_status_shape vi.direct_url a.fetch a.startTime e).1 hr
        rw [regular_go_ok_none a rest e vi hx hr]
        simp only [hupd, chainOk_cons,
          chainOk_all_streaming_append mid ["completed"] hmid]
        decide
      | some ex2 =>
        have hall := (perform_status_shape vi.direct_url a.fetch a.startTime e).2 ex2 hr
        cases rest with
        | nil =>
          rw [regular_go_ok_some_last a e vi ex2 hx hr]
          simp only [chainOk_all_streaming_append _ ["error"] hall]
          decide
        | cons b bs =>
          rw [regular_go_ok_some_cont a b bs e vi ex2 hx hr]
          simp only [chainOk_all_streaming_append _ _ hall]
          exact ih _

theorem regular_go_fetched_indep (atts : List Attempt) (e eo : DownloadEntry) :
    (regular_go atts e).fetched = (regular_go atts eo).fetched := by
  induction atts generalizing e eo with
  | nil => rfl
  | cons a rest ih =>
    cases hx : a.extract with
    | error ex =>
      cases rest with
      | nil => rw [regular_go_err_last a e ex hx, regular_go_err_last a eo ex hx]
      | cons b bs =>
        rw [regular_go_err_cont a b bs e ex hx, regular_go_err_cont a b bs eo ex hx]
        exact ih e eo
    | ok vi =>
      have hres := (perform_streaming_indep vi.direct_url a.fetch a.startTime e eo).1
      cases hr : (perform_streaming vi.direct_url a.fetch a.startTime e).result with
      | none =>
        have hr2 : (perform_streaming vi.direct_url a.fetch a.startTime eo).result = none := by
          rw [← hres]
          exact hr
        rw [regular_go_ok_none a rest e vi hx hr, regular_go_ok_none a rest eo vi hx hr2]
      | some ex =>
        have hr2 : (perform_streaming vi.direct_url a.fetch a.startTime eo).result = some ex := by
          rw [← hres]
          exact hr
        cases rest with
        | nil =>
          rw [regular_go_ok_some_last a e vi ex hx hr,
            regular_go_ok_some_last a eo vi ex hx hr2]
        | cons b bs =>
          rw [regular_go_ok_some_cont a b bs e vi ex hx hr,
            regular_go_ok_some_cont a b bs eo vi ex hx hr2]
          show vi.direct_url :: _ = vi.direct_url :: _
          exact congrArg (List.cons vi.direct_url) (ih _ _)

theorem regular_go_fetched_mem (atts : List Attempt) (e : DownloadEntry) :
    ∀ u ∈ (regular_go atts e).fetched,
      ∃ a ∈ atts, ∃ vi, a.extract = Except.ok vi ∧ vi.direct_url = u := by
  induction atts generalizing e with
  | nil =>
    intro u hu
    simp [regular_go] at hu
  | cons a rest ih =>
    intro u hu
    cases hx : a.extract with
    | error ex =>
      cases rest with
      | nil =>
        rw [regular_go_err_last a e ex hx] at hu
        simp at hu
      | cons b bs =>
        rw [regular_go_err_cont a b bs e ex hx] at hu
        obtain ⟨a2, ha2, vi, hvi, hurl⟩ := ih e u hu
        exact ⟨a2, List.mem_cons_of_mem a ha2, vi, hvi, hurl⟩
    | ok vi =>
      cases hr : (perform_streaming vi.direct_url a.fetch a.startTime e).result with
      | none =>
        rw [regular_go_ok_none a rest e vi hx hr] at hu
        have hu2 : u ∈ [vi.direct_url] := hu
        rw [List.mem_singleton] at hu2
        exact ⟨a, List.mem_cons_self a rest, vi, hx, hu2.symm⟩
      | some ex =>
        cases rest with
        | nil =>
          rw [regular_go_ok_some_last a e vi ex hx hr] at hu
          have hu2 : u ∈ [vi.direct_url] := hu
          rw [List.mem_singleton] at hu2
          exact ⟨a, List.mem_cons_self a [], vi, hx, hu2.symm⟩
        | cons b bs =>
          rw [regular_go_ok_some_cont a b bs e vi ex hx hr] at hu
          have hu2 : u ∈ vi.direct_url ::
              (regular_go (b :: bs)
                (perform_streaming vi.direct_url a.fetch a.startTime e).entry).fetched := hu
          rcases List.mem_cons.mp hu2 with hu3 | hu3
          · exact ⟨a, List.mem_cons_self a _, vi, hx, hu3.symm⟩
          · obtain ⟨a2, ha2, vi2, hvi2, hurl⟩ := ih _ u hu3
            exact ⟨a2, List.mem_cons_of_mem a ha2, vi2, hvi2, hurl⟩

/-- Equation for perform_streaming on an upstream 403: it raises before
touching the registry entry and before yielding any byte. -/
theorem perform_streaming_403 (u : String) (f : FetchResponse) (t : Nat) (e : DownloadEntry)
    (h : f.status = 403) :
    perform_streaming u f t e =
      { yielded := [], progress := [], statusUpdates := [], entry := e
        result := some (http403Msg u) } := by
  unfold perform_streaming
  rw [if_pos h]

/- ----------------------------------------------------------------
   Concrete worlds for the streaming counterexamples.
   ---------------------------------------------------------------- -/

/-- Extraction result of the first (failing) attempt in the
counterexample worlds. -/
def cexVI1 : VideoInfo :=
  { direct_url := "https://cdn.example/a.mp4", title := "t", filename := "f.mp4"
    filesize := some 2, platform := "youtube" }

/-- Extraction result of the second (succeeding) attempt in the
counterexample worlds: the re-resolution yields a different URL. -/
def cexVI2 : VideoInfo :=
  { direct_url := "https://cdn.example/b.mp4", title := "t", filename := "f.mp4"
    filesize := some 2, platform := "youtube" }

/-- A fetch that serves the full two-byte body (emitting a progress
event at downloaded = 2) and then raises a transport error from
iter_content. -/
def cexFetchFail : FetchResponse :=
  { status := 200, reason := "OK", contentLength := 2
    chunks := [{ time := 0, data := [9, 9] }]
    midError := some "Connection reset by peer" }

/-- A fetch that succeeds, serving one byte of a five-byte resource and
emitting a progress event at downloaded = 1 (triggered by elapsed
time). -/
def cexFetchOk : FetchResponse :=
  { status := 200, reason := "OK", contentLength := 5
    chunks := [{ time := 5, data := [7] }]
    midError := none }

/-- First attempt: extraction succeeds, fetch fails mid-stream. -/
def cexAttempt0 : Attempt := { extract := Except.ok cexVI1, fetch := cexFetchFail, startTime := 0 }

/-- Second attempt: fresh extraction succeeds with a new URL, fetch
completes. -/
def cexAttempt1 : Attempt := { extract := Except.ok cexVI2, fetch := cexFetchOk, startTime := 0 }

/-- The registry entry of the session being streamed. -/
def cexEntry : DownloadEntry := { id := "d1", url := "https://youtu.be/x", status := "streaming" }

/-- A fetch whose GET returns HTTP 403 Forbidden. -/
def cex403Fetch : FetchResponse :=
  { status := 403, reason := "Forbidden", contentLength := 0, chunks := [], midError := none }

/-- An attempt whose extraction succeeds but whose fetch is rejected
with 403. -/
def cex403Attempt : Attempt := { extract := Except.ok cexVI1, fetch := cex403Fetch, startTime := 0 }

/-- The final 403 attempt, resolving to the second URL. -/
def cex403AttemptB : Attempt := { extract := Except.ok cexVI2, fetch := cex403Fetch, startTime := 0 }

/- ----------------------------------------------------------------
   Claim C3.
   ---------------------------------------------------------------- -/

/-- C3 counterexample: in this concrete world the first attempt's fetch
yields a byte chunk and then fails (first two conjuncts), after which
handle_regular_streaming silently re-extracts and issues a second GET
on a NEW URL (third conjunct), re-yields the resource from byte 0 onto
the same byte stream (fourth conjunct: the consumer of the two-byte
resource receives three bytes), and the session ends completed, not
failed (fifth conjunct).  This falsifies the claim that after a byte
has been yielded an upstream fetch failure transitions the session to
Failed without re-extraction or restart. -/
theorem c3_midstream_failure_silent_restart_cex :
    (perform_streaming cexVI1.direct_url cexFetchFail 0 cexEntry).yielded = [[9, 9]] ∧
    (perform_streaming cexVI1.direct_url cexFetchFail 0 cexEntry).result =
      some "Connection reset by peer" ∧
    (handle_regular_streaming cexAttempt0 cexAttempt1 cexAttempt0 cexEntry).fetched =
      ["https://cdn.example/a.mp4", "https://cdn.example/b.mp4"] ∧
    (handle_regular_streaming cexAttempt0 cexAttempt1 cexAttempt0 cexEntry).yielded =
      [[9, 9], [7]] ∧
    (handle_regular_streaming cexAttempt0 cexAttempt1 cexAttempt0 cexEntry).entry.status =
      "completed" := by
  refine ⟨rfl, rfl, rfl, rfl, rfl⟩

/-- C3 as amended: a fetch failure after bytes have been yielded does
NOT fail the session; handle_regular_streaming silently retries within
the same invocation: it re-extracts, fetches the freshly resolved URL,
and restarts the byte stream from byte 0, appending the new bytes after
the already-yielded prefix; if the retry completes, the session ends
completed.  Only after all three attempts fail is the session marked
error. -/
theorem c3_retry_reextracts_and_restarts (a0 a1 a2 : Attempt) (e : DownloadEntry)
    (v0 v1 : VideoInfo) (err : String)
    (h0 : a0.extract = Except.ok v0) (h1 : a1.extract = Except.ok v1)
    (hr0 : ∀ eh : DownloadEntry,
      (perform_streaming v0.direct_url a0.fetch a0.startTime eh).result = some err)
    (hr1 : ∀ eh : DownloadEntry,
      (perform_streaming v1.direct_url a1.fetch a1.startTime eh).result = none) :
    (handle_regular_streaming a0 a1 a2 e).fetched = [v0.direct_url, v1.direct_url] ∧
    (handle_regular_streaming a0 a1 a2 e).yielded =
      (perform_streaming v0.direct_url a0.fetch a0.startTime e).yielded ++
        (perform_streaming v1.direct_url a1.fetch a1.startTime e).yielded ∧
    (handle_regular_streaming a0 a1 a2 e).entry.status = "completed" := by
  unfold handle_regular_streaming
  rw [regular_go_ok_some_cont a0 a1 [a2] e v0 err h0 (hr0 e)]
  rw [regular_go_ok_none a1 [a2]
    (perform_streaming v0.direct_url a0.fetch a0.startTime e).entry v1 h1 (hr1 _)]
  refine ⟨rfl, ?_, ?_⟩
  · show (perform_streaming v0.direct_url a0.fetch a0.startTime e).yielded ++
      (perform_streaming v1.direct_url a1.fetch a1.startTime
        (perform_streaming v0.direct_url a0.fetch a0.startTime e).entry).yielded = _
    rw [(perform_streaming_indep v1.direct_url a1.fetch a1.startTime
      (perform_streaming v0.direct_url a0.fetch a0.startTime e).entry e).2.1]
  · exact perform_completed_of_result_none _ _ _ _ (hr1 _)

/-- Witness for c3_retry_reextracts_and_restarts at the concrete
counterexample world. -/
theorem c3_retry_reextracts_and_restarts_witness :
    (handle_regular_streaming cexAttempt0 cexAttempt1 cexAttempt0 cexEntry).fetched =
      [cexVI1.direct_url, cexVI2.direct_url] ∧
    (handle_regular_streaming cexAttempt0 cexAttempt1 cexAttempt0 cexEntry).yielded =
      (perform_streaming cexVI1.direct_url cexAttempt0.fetch cexAttempt0.startTime cexEntry).yielded ++
        (perform_streaming cexVI2.direct_url cexAttempt1.fetch cexAttempt1.startTime cexEntry).yielded ∧
    (handle_regular_streaming cexAttempt0 cexAttempt1 cexAttempt0 cexEntry).entry.status =
      "completed" :=
  c3_retry_reextracts_and_restarts cexAttempt0 cexAttempt1 cexAttempt0 cexEntry
    cexVI1 cexVI2 "Connection reset by peer" rfl rfl (fun _ => rfl) (fun _ => rfl)

/- ----------------------------------------------------------------
   Claim C4.
   ---------------------------------------------------------------- -/

/-- C4: every stream invocation re-runs extraction before fetching any
bytes, and the direct URL resolved at session-creation time is never
reused.  Formally: (1) the list of URLs actually fetched by a
handle_regular_streaming run does not depend on the stored registry
entry at all (so nothing stored at creation time can supply a fetch
URL); (2) every fetched URL is the direct_url of a fresh
extract_direct_url result obtained by one of the attempts of this very
invocation; (3) the registry entry created by quick_download is
entirely independent of the extraction result's direct_url field - the
resolved URL is not even stored. -/
theorem c4_stream_refetches_never_reuses_stored_url (a0 a1 a2 : Attempt)
    (e eo : DownloadEntry) :
    (handle_regular_streaming a0 a1 a2 e).fetched =
      (handle_regular_streaming a0 a1 a2 eo).fetched ∧
    (∀ u ∈ (handle_regular_streaming a0 a1 a2 e).fetched,
      ∃ a ∈ [a0, a1, a2], ∃ vi, a.extract = Except.ok vi ∧ vi.direct_url = u) ∧
    (∀ did url vi du, quick_download_entry did url vi =
      quick_download_entry did url { vi with direct_url := du }) := by
  refine ⟨regular_go_fetched_indep _ e eo, regular_go_fetched_mem _ e, ?_⟩
  intro did url vi du
  rfl

/-- Witness for c4_stream_refetches_never_reuses_stored_url: in the
concrete world the second fetched URL is the one produced by the second
attempt's fresh extraction. -/
theorem c4_stream_refetches_never_reuses_stored_url_witness :
    ∃ a ∈ [cexAttempt0, cexAttempt1, cexAttempt0], ∃ vi,
      a.extract = Except.ok vi ∧ vi.direct_url = "https://cdn.example/b.mp4" :=
  (c4_stream_refetches_never_reuses_stored_url cexAttempt0 cexAttempt1 cexAttempt0
    cexEntry cexEntry).2.1 "https://cdn.example/b.mp4" (by decide)

/- ----------------------------------------------------------------
   Claim C5.
   ---------------------------------------------------------------- -/

/-- C5 counterexample: when the upstream GET returns 403 on every
attempt, the session does end in error with a reason mentioning 403,
but the claim that no byte is ever yielded to the sink is false: the
generator's final-failure path yields the encoded error text into the
byte stream (app.py line 1415), so the yielded list is nonempty. -/
theorem c5_forbidden_yields_error_text_cex :
    (handle_regular_streaming cex403Attempt cex403Attempt cex403AttemptB cexEntry).yielded ≠ [] ∧
    (handle_regular_streaming cex403Attempt cex403Attempt cex403AttemptB cexEntry).entry.status =
      "error" ∧
    strHasSub "403"
      ((handle_regular_streaming cex403Attempt cex403Attempt cex403AttemptB
        cexEntry).entry.error.getD "") = true := by
  refine ⟨by decide, rfl, by decide⟩

/-- C5 as amended: if the upstream GET returns 403 on all three
attempts, the session ends in error state with a failure reason that
names the 403, no upstream media byte and no progress event is ever
emitted, and the only bytes yielded to the sink are the encoding of the
final error message text. -/
theorem c5_all_403_session_error (v0 v1 v2 : VideoInfo) (f0 f1 f2 : FetchResponse)
    (t0 t1 t2 : Nat) (e : DownloadEntry)
    (h0 : f0.status = 403) (h1 : f1.status = 403) (h2 : f2.status = 403) :
    (handle_regular_streaming ⟨Except.ok v0, f0, t0⟩ ⟨Except.ok v1, f1, t1⟩
        ⟨Except.ok v2, f2, t2⟩ e).entry.status = "error" ∧
    (handle_regular_streaming ⟨Except.ok v0, f0, t0⟩ ⟨Except.ok v1, f1, t1⟩
        ⟨Except.ok v2, f2, t2⟩ e).entry.error =
      some (regularFailMsg (http403Msg v2.direct_url)) ∧
    strHasSub "403" (regularFailMsg (http403Msg v2.direct_url)) = true ∧
    (handle_regular_streaming ⟨Except.ok v0, f0, t0⟩ ⟨Except.ok v1, f1, t1⟩
        ⟨Except.ok v2, f2, t2⟩ e).yielded =
      [strBytes (regularFailMsg (http403Msg v2.direct_url))] ∧
    (handle_regular_streaming ⟨Except.ok v0, f0, t0⟩ ⟨Except.ok v1, f1, t1⟩
        ⟨Except.ok v2, f2, t2⟩ e).progress = [] := by
  have q0 := perform_streaming_403 v0.direct_url f0 t0 e h0
  unfold handle_regular_streaming
  rw [regular_go_ok_some_cont ⟨Except.ok v0, f0, t0⟩ ⟨Except.ok v1, f1, t1⟩
    [⟨Except.ok v2, f2, t2⟩] e v0 (http403Msg v0.direct_url) rfl (by rw [q0])]
  rw [q0]
  have q1 := perform_streaming_403 v1.direct_url f1 t1 e h1
  rw [regular_go_ok_some_cont ⟨Except.ok v1, f1, t1⟩ ⟨Except.ok v2, f2, t2⟩
    [] e v1 (http403Msg v1.direct_url) rfl (by rw [q1])]
  rw [q1]
  have q2 := perform_streaming_403 v2.direct_url f2 t2 e h2
  rw [regular_go_ok_some_last ⟨Except.ok v2, f2, t2⟩ e v2 (http403Msg v2.direct_url)
    rfl (by rw [q2])]
  rw [q2]
  refine ⟨rfl, rfl, ?_, rfl, rfl⟩
  have hassoc : regularFailMsg (http403Msg v2.direct_url) =
      ("Regular streaming failed after 3 attempts: " ++ "403 Forbidden: ") ++
        v2.direct_url := by
    unfold regularFailMsg http403Msg
    cases hv : v2.direct_url with
    | mk l =>
      apply congrArg String.mk
      exact (List.append_assoc _ _ _).symm
  rw [hassoc]
  exact strHasSub_append_left _ _ _ (by decide)

/-- Witness for c5_all_403_session_error at the concrete 403 world. -/
theorem c5_all_403_session_error_witness :
    (handle_regular_streaming ⟨Except.ok cexVI1, cex403Fetch, 0⟩
        ⟨Except.ok cexVI1, cex403Fetch, 0⟩ ⟨Except.ok cexVI2, cex403Fetch, 0⟩
        cexEntry).entry.status = "error" ∧
    (handle_regular_streaming ⟨Except.ok cexVI1, cex403Fetch, 0⟩
        ⟨Except.ok cexVI1, cex403Fetch, 0⟩ ⟨Except.ok cexVI2, cex403Fetch, 0⟩
        cexEntry).entry.error =
      some (regularFailMsg (http403Msg cexVI2.direct_url)) ∧
    strHasSub "403" (regularFailMsg (http403Msg cexVI2.direct_url)) = true ∧
    (handle_regular_streaming ⟨Except.ok cexVI1, cex403Fetch, 0⟩
        ⟨Except.ok cexVI1, cex403Fetch, 0⟩ ⟨Except.ok cexVI2, cex403Fetch, 0⟩
        cexEntry).yielded =
      [strBytes (regularFailMsg (http403Msg cexVI2.direct_url))] ∧
    (handle_regular_streaming ⟨Except.ok cexVI1, cex403Fetch, 0⟩
        ⟨Except.ok cexVI1, cex403Fetch, 0⟩ ⟨Except.ok cexVI2, cex403Fetch, 0⟩
        cexEntry).progress = [] :=
  c5_all_403_session_error cexVI1 cexVI1 cexVI2 cex403Fetch cex403Fetch cex403Fetch
    0 0 0 cexEntry rfl rfl rfl

/- ----------------------------------------------------------------
   Claim C6.
   ---------------------------------------------------------------- -/

/-- C6 counterexample: nothing in the code guards against invoking the
stream endpoint again for a session already in a terminal state: the
session stays registered after completion (only the explicit clear
removes it), and generate_stream's first action sets status streaming
unconditionally (app.py line 1240).  Starting a stream on a completed
entry therefore performs the transition completed to streaming, which
the claimed state machine forbids. -/
theorem c6_terminal_restream_cex :
    ({ id := "d1", url := "u", status := "completed" } : DownloadEntry).status = "completed" ∧
    (generate_stream cexAttempt0 cexAttempt1 cexAttempt0
      { id := "d1", url := "u", status := "completed" }).statusUpdates.head? =
      some "streaming" ∧
    claimAllowedTransition "completed" "streaming" = false := by
  refine ⟨rfl, rfl, by decide⟩

/-- C6 as amended: (1) within a single stream invocation on a session
whose status is ready, every status assignment follows the claimed
machine Ready to Streaming to Completed or Failed(error), allowing
re-assignment of the current value, and no assignment leaves a terminal
status within that invocation; however a NEW invocation resets any
session, including a terminal one, to streaming.  (2) The housekeeping
sweep keeps exactly the sessions whose status is in the whitelist
(queued, starting, streaming, ready): it never removes ready or
streaming sessions and removes exactly the completed and error ones
among the statuses the code assigns. -/
theorem c6_lifecycle_and_sweep :
    (∀ (a0 a1 a2 : Attempt) (e : DownloadEntry), e.status = "ready" →
      chainOk e.status (generate_stream a0 a1 a2 e).statusUpdates = true) ∧
    (∀ (m : List DownloadEntry) (en : DownloadEntry), en ∈ m →
      (en ∈ clear_downloads m ↔ keepStatuses.contains en.status = true)) := by
  constructor
  · intro a0 a1 a2 e he
    rw [he]
    show chainOk "ready" ("streaming" ::
      (regular_go [a0, a1, a2] { e with status := "streaming" }).statusUpdates) = true
    rw [chainOk_cons, regular_go_chainOk]
    decide
  · intro m en hmem
    unfold clear_downloads
    rw [List.mem_filter]
    constructor
    · intro h
      exact h.2
    · intro h
      exact ⟨hmem, h⟩

/-- Witness for c6_lifecycle_and_sweep: a concrete ready session
streamed through the concrete world, and a concrete registry swept. -/
theorem c6_lifecycle_and_sweep_witness :
    chainOk ({ id := "d1", url := "u", status := "ready" } : DownloadEntry).status
      (generate_stream cexAttempt0 cexAttempt1 cexAttempt0
        { id := "d1", url := "u", status := "ready" }).statusUpdates = true ∧
    (({ id := "a", status := "completed" } : DownloadEntry) ∈
      clear_downloads [{ id := "a", status := "completed" }, { id := "b", status := "ready" }] ↔
      keepStatuses.contains ({ id := "a", status := "completed" } : DownloadEntry).status = true) :=
  ⟨c6_lifecycle_and_sweep.1 cexAttempt0 cexAttempt1 cexAttempt0
      { id := "d1", url := "u", status := "ready" } rfl,
    c6_lifecycle_and_sweep.2
      [{ id := "a", status := "completed" }, { id := "b", status := "ready" }]
      { id := "a", status := "completed" } (by simp)⟩

/- ----------------------------------------------------------------
   Claim C7.
   ---------------------------------------------------------------- -/

/-- C7 counterexample: progress events for one session are NOT globally
monotone across one stream invocation: in the concrete world the first
attempt emits a progress event with downloaded_bytes 2, the fetch then
fails, and the silent retry resets the counter to zero, so the next
progress event published for the same session id carries
downloaded_bytes 1.  The consecutive pair (2, 1) is decreasing. -/
theorem c7_progress_reset_on_retry_cex :
    (handle_regular_streaming cexAttempt0 cexAttempt1 cexAttempt0 cexEntry).progress = [2, 1] ∧
    sortedNat (handle_regular_streaming cexAttempt0 cexAttempt1 cexAttempt0
      cexEntry).progress = false := by
  refine ⟨rfl, rfl⟩

/-- C7 as amended: within a single perform_streaming attempt (one
upstream GET) the downloaded_bytes values of the emitted progress
events are monotonically non-decreasing; the guarantee does not extend
across the retry attempts of one invocation, where the counter restarts
from zero. -/
theorem c7_progress_monotone_per_attempt (u : String) (resp : FetchResponse) (t : Nat)
    (e : DownloadEntry) :
    sortedNat (perform_streaming u resp t e).progress = true := by
  unfold perform_streaming
  split_ifs with h1 h2 h3
  · rfl
  · rfl
  · rfl
  · cases hm : resp.midError with
    | some err => exact (stream_chunks_progress_sorted _ _ _ _ _).1
    | none => exact (stream_chunks_progress_sorted _ _ _ _ _).1

end VLTool
